import Mathlib

/-!
A shallow embedding of the Watchdog messaging relay server
(`src/server/routes.ts`, `src/server/storage.ts`, and the shared Drizzle
schema).  The durable store is modelled as lists of rows; times are
naturals (milliseconds, matching `Date.now()`); uuid-valued columns are
opaque identifiers.  Each `DatabaseStorage` method becomes a pure
function on the `Storage` state, and each socket handler becomes a
function from `ServerState` to `ServerState` plus the list of emitted
events, in program order.
-/

namespace WatchDogs

/-- A row of the `users` table (shared schema). -/
structure User where
  id : String
  username : String
  publicKey : String
  identityKey : String
  signedPreKey : String
  pairingCode : String
  isOnline : Bool
  lastSeen : Option Nat
deriving DecidableEq, Repr

/-- A row of the `contacts` table: a directed edge userId → contactId. -/
structure Contact where
  id : Nat
  userId : String
  contactId : String
  status : String
  isVerified : Bool
  safetyNumber : Option String
  createdAt : Nat
  updatedAt : Nat
deriving DecidableEq, Repr

/-- A row of the `messages` table. -/
structure Message where
  id : Nat
  senderId : String
  recipientId : String
  encryptedContent : String
  nonce : String
  isEncrypted : Bool
  isRead : Bool
  isDelivered : Bool
  selfDestructAt : Option Nat
  selfDestructSeconds : Option Nat
  createdAt : Nat
  deletedAt : Option Nat
deriving DecidableEq, Repr

/-- A row of the `contact_requests` table: a directed edge fromUserId → toUserId. -/
structure ContactRequest where
  id : Nat
  fromUserId : String
  toUserId : String
  status : String
  createdAt : Nat
  respondedAt : Option Nat
deriving DecidableEq, Repr

/-- The durable store: the four relational entities. -/
structure Storage where
  users : List User
  contacts : List Contact
  messages : List Message
  contactRequests : List ContactRequest
deriving DecidableEq, Repr

/-! ## DatabaseStorage methods (`src/server/storage.ts`) -/

/-- Embeds `DatabaseStorage.getUser`: point query on `users.id`. -/
def getUser (st : Storage) (id : String) : Option User :=
  (st.users.filter (fun u => decide (u.id = id))).head?

/-- Embeds `DatabaseStorage.updateUserOnlineStatus`: sets `isOnline` and refreshes
`lastSeen` on the matching user row. -/
def updateUserOnlineStatus (st : Storage) (userId : String) (isOnline : Bool)
    (now : Nat) : Storage :=
  { st with users := st.users.map fun u =>
      if u.id = userId then { u with isOnline := isOnline, lastSeen := some now } else u }

/-- Embeds `DatabaseStorage.createContact`: inserts a contact row (schema defaults:
`isVerified = false`, `safetyNumber` null, timestamps now) and returns it. -/
def createContact (st : Storage) (userId contactId status : String)
    (newId now : Nat) : Storage × Contact :=
  let c : Contact :=
    { id := newId, userId := userId, contactId := contactId, status := status,
      isVerified := false, safetyNumber := none, createdAt := now, updatedAt := now }
  ({ st with contacts := st.contacts ++ [c] }, c)

/-- The conversation predicate of `DatabaseStorage.getMessages`: not
soft-deleted, and addressed between exactly the two given users. -/
def conversationPred (userId contactId : String) (m : Message) : Prop :=
  m.deletedAt = none ∧
    ((m.senderId = userId ∧ m.recipientId = contactId) ∨
     (m.senderId = contactId ∧ m.recipientId = userId))

instance (userId contactId : String) (m : Message) :
    Decidable (conversationPred userId contactId m) := by
  unfold conversationPred; infer_instance

/-- Insertion step for ordering by descending `createdAt`
(`orderBy(desc(messages.createdAt))`). -/
def insertByCreatedDesc (m : Message) : List Message → List Message
  | [] => [m]
  | x :: xs =>
      if x.createdAt ≤ m.createdAt then m :: x :: xs
      else x :: insertByCreatedDesc m xs

/-- Sorting by descending `createdAt`. -/
def sortByCreatedDesc : List Message → List Message
  | [] => []
  | x :: xs => insertByCreatedDesc x (sortByCreatedDesc xs)

/-- Embeds `DatabaseStorage.getMessages`: non-deleted messages exchanged between
the two users, newest first. -/
def getMessages (st : Storage) (userId contactId : String) : List Message :=
  sortByCreatedDesc
    (st.messages.filter (fun m => decide (conversationPred userId contactId m)))

/-- The payload of the `message:send` socket event, which is also exactly
the insert shape passed to `DatabaseStorage.createMessage`. -/
structure SendData where
  senderId : String
  recipientId : String
  encryptedContent : String
  nonce : String
  isEncrypted : Bool
  selfDestructSeconds : Option Nat
deriving DecidableEq, Repr

/-- Embeds `DatabaseStorage.createMessage`: derives `selfDestructAt` as
`Date.now() + selfDestructSeconds * 1000` when `selfDestructSeconds` is
truthy (in JavaScript, `0` is falsy, so a present zero yields `null`),
inserts the row with the schema defaults (`isRead = false`,
`isDelivered = false`, `deletedAt` null), and returns the stored row. -/
def createMessage (st : Storage) (d : SendData) (newId now : Nat) :
    Storage × Message :=
  let selfDestructAt : Option Nat :=
    match d.selfDestructSeconds with
    | some s => if s = 0 then none else some (now + s * 1000)
    | none => none
  let m : Message :=
    { id := newId, senderId := d.senderId, recipientId := d.recipientId,
      encryptedContent := d.encryptedContent, nonce := d.nonce,
      isEncrypted := d.isEncrypted, isRead := false, isDelivered := false,
      selfDestructAt := selfDestructAt,
      selfDestructSeconds := d.selfDestructSeconds,
      createdAt := now, deletedAt := none }
  ({ st with messages := st.messages ++ [m] }, m)

/-- The row update of `markMessageAsRead`: `set({ isRead: true })` on the
matching row. -/
def markReadRow (messageId : Nat) (m : Message) : Message :=
  if m.id = messageId then { m with isRead := true } else m

/-- Embeds `DatabaseStorage.markMessageAsRead`: sets `isRead` on the matching row. -/
def markMessageAsRead (st : Storage) (messageId : Nat) : Storage :=
  { st with messages := st.messages.map (markReadRow messageId) }

/-- The row update of `markMessageAsDelivered`: `set({ isDelivered: true })`
on the matching row. -/
def markDeliveredRow (messageId : Nat) (m : Message) : Message :=
  if m.id = messageId then { m with isDelivered := true } else m

/-- Embeds `DatabaseStorage.markMessageAsDelivered`: sets `isDelivered` on the
matching row. -/
def markMessageAsDelivered (st : Storage) (messageId : Nat) : Storage :=
  { st with messages := st.messages.map (markDeliveredRow messageId) }

/-- The row update of `deleteMessage`: `set({ deletedAt: new Date() })` on
the matching row. -/
def deleteMessageRow (messageId now : Nat) (m : Message) : Message :=
  if m.id = messageId then { m with deletedAt := some now } else m

/-- Embeds `DatabaseStorage.deleteMessage`: soft delete, setting `deletedAt` to the
current time on the matching row. -/
def deleteMessage (st : Storage) (messageId : Nat) (now : Nat) : Storage :=
  { st with messages := st.messages.map (deleteMessageRow messageId now) }

/-- Embeds `DatabaseStorage.getExpiredMessages`: selects the rows with
`deletedAt` null and `isRead = true` — no condition on `selfDestructAt`. -/
def getExpiredMessages (st : Storage) : List Message :=
  st.messages.filter (fun m => decide (m.deletedAt = none ∧ m.isRead = true))

/-- Embeds `DatabaseStorage.createContactRequest`: inserts a request row with the
schema default status `pending` and returns it. -/
def createContactRequest (st : Storage) (fromUserId toUserId : String)
    (newId now : Nat) : Storage × ContactRequest :=
  let r : ContactRequest :=
    { id := newId, fromUserId := fromUserId, toUserId := toUserId,
      status := "pending", createdAt := now, respondedAt := none }
  ({ st with contactRequests := st.contactRequests ++ [r] }, r)

/-- Embeds `DatabaseStorage.updateContactRequestStatus`: sets `status` and stamps
`respondedAt` on the matching request row. -/
def updateContactRequestStatus (st : Storage) (requestId : Nat)
    (status : String) (now : Nat) : Storage :=
  { st with contactRequests := st.contactRequests.map fun r =>
      if r.id = requestId then { r with status := status, respondedAt := some now } else r }

/-- Embeds `DatabaseStorage.getContactRequest`: point query on the ordered
(fromUserId, toUserId) pair.  Note it does NOT filter on `status`. -/
def getContactRequest (st : Storage) (fromUserId toUserId : String) :
    Option ContactRequest :=
  (st.contactRequests.filter
    (fun r => decide (r.fromUserId = fromUserId ∧ r.toUserId = toUserId))).head?

/-! ## Server layer (`src/server/routes.ts`) -/

/-- The in-memory presence directory `connectedUsers : Map<userId, socketId>`. -/
abbrev Presence := List (String × String)

/-- Embeds `connectedUsers.set(userId, socketId)`: record/overwrite the mapping
(Map keys are unique, so any previous entry for the user is replaced). -/
def presenceSet (p : Presence) (userId socketId : String) : Presence :=
  (userId, socketId) :: p.filter (fun e => decide (e.1 ≠ userId))

/-- Embeds `connectedUsers.get(userId)`. -/
def presenceGet (p : Presence) (userId : String) : Option String :=
  (p.filter (fun e => decide (e.1 = userId))).head?.map (·.2)

/-- The relay process state: the presence directory plus the durable store. -/
structure ServerState where
  connectedUsers : Presence
  store : Storage
deriving DecidableEq, Repr

/-- Where a socket.io emit is addressed. -/
inductive Target where
  /-- `socket.emit(...)`: back to the session that raised the event. -/
  | senderSocket
  /-- `io.to(socketId).emit(...)`: to one live session. -/
  | socketOf (sid : String)
  /-- `io.emit(...)`: broadcast to all connected sessions. -/
  | broadcast
deriving DecidableEq, Repr

/-- The payloads the handlers emit. -/
inductive Payload where
  | status (userId : String) (isOnline : Bool)
  | msg (m : Message)
  | req (r : ContactRequest)
  | err (s : String)
  | callIncoming (src : String) (offer : String)
  | callGetOffer
  | callAnswerBody (src : String) (answer : String)
  | callIce (candidate : String)
  | callRejected
  | callEnded
  | contactPeer (u : Option User)
deriving DecidableEq, Repr

/-- One socket.io emit: target, event name, payload. -/
structure Emit where
  target : Target
  name : String
  payload : Payload
deriving DecidableEq, Repr

/-- The three externally visible side effects of the `user:online` handler,
in program order. -/
inductive OnlineStep where
  /-- `connectedUsers.set(userId, socket.id)`: the in-memory map update. -/
  | mapUpdate (userId socketId : String)
  /-- `await storage.updateUserOnlineStatus(userId, true)`: the durable-store
  write, awaited to completion. -/
  | storeWriteAwaited (userId : String) (isOnline : Bool)
  /-- `io.emit("user:status", { userId, isOnline })`: the broadcast. -/
  | statusBroadcast (userId : String) (isOnline : Bool)
deriving DecidableEq, Repr

/-- The `user:online` handler: updates the presence map, awaits the store
write, then broadcasts the status.  Returns the new state together with the
trace of its side effects in program order. -/
def userOnline (s : ServerState) (userId socketId : String) (now : Nat) :
    ServerState × List OnlineStep :=
  let p := presenceSet s.connectedUsers userId socketId
  let st := updateUserOnlineStatus s.store userId true now
  ({ connectedUsers := p, store := st },
   [OnlineStep.mapUpdate userId socketId,
    OnlineStep.storeWriteAwaited userId true,
    OnlineStep.statusBroadcast userId true])

/-- The `message:send` handler.  `persistOk` models whether the
`storage.createMessage` write succeeds; on failure the catch block emits
`message:error` and nothing is stored.  On success, if the recipient has a
live session the stored record is forwarded to it and the row is marked
delivered; in all success cases the stored record (as returned by the
insert, before any delivered-flag update) is echoed to the sender. -/
def messageSend (s : ServerState) (d : SendData) (newId now : Nat)
    (persistOk : Bool) : ServerState × List Emit :=
  if persistOk then
    let (st1, m) := createMessage s.store d newId now
    match presenceGet s.connectedUsers d.recipientId with
    | some sid =>
        let st2 := markMessageAsDelivered st1 m.id
        ({ s with store := st2 },
         [{ target := Target.socketOf sid, name := "message:receive", payload := Payload.msg m },
          { target := Target.senderSocket, name := "message:sent", payload := Payload.msg m }])
    | none =>
        ({ s with store := st1 },
         [{ target := Target.senderSocket, name := "message:sent", payload := Payload.msg m }])
  else
    (s, [{ target := Target.senderSocket, name := "message:error",
           payload := Payload.err "Failed to send message" }])

/-- The `contact:request` handler: conflict if `getContactRequest` finds any
row for the ordered pair; otherwise create a pending request, forward it to
the recipient when both a live session and the sender profile exist, and
acknowledge the sender. -/
def contactRequestHandler (s : ServerState) (fromUserId toUserId : String)
    (newId now : Nat) : ServerState × List Emit :=
  match getContactRequest s.store fromUserId toUserId with
  | some _ =>
      (s, [{ target := Target.senderSocket, name := "contact:request:error",
             payload := Payload.err "Request already sent" }])
  | none =>
      let (st1, r) := createContactRequest s.store fromUserId toUserId newId now
      let fromUser := getUser st1 fromUserId
      let fwd : List Emit :=
        match presenceGet s.connectedUsers toUserId, fromUser with
        | some sid, some _ =>
            [{ target := Target.socketOf sid, name := "contact:request:received",
               payload := Payload.req r }]
        | _, _ => []
      ({ s with store := st1 },
       fwd ++ [{ target := Target.senderSocket, name := "contact:request:sent",
                 payload := Payload.req r }])

/-- The `contact:accept` handler.  The three store writes run in sequence
with no transaction; `ok1`, `ok2`, `ok3` model whether each write succeeds.
A failing write throws, so later writes are skipped, the catch block emits
`contact:error`, and writes already performed are NOT rolled back.  The
returned `Bool` is true exactly on the no-error path. -/
def contactAccept (s : ServerState) (requestId : Nat) (userId contactId : String)
    (ok1 ok2 ok3 : Bool) (newId1 newId2 now : Nat) :
    ServerState × List Emit × Bool :=
  let errEmit : List Emit :=
    [{ target := Target.senderSocket, name := "contact:error",
       payload := Payload.err "Failed to accept request" }]
  if ok1 then
    let st1 := updateContactRequestStatus s.store requestId "accepted" now
    if ok2 then
      let (st2, _) := createContact st1 userId contactId "accepted" newId1 now
      if ok3 then
        let (st3, _) := createContact st2 contactId userId "accepted" newId2 now
        let user := getUser st3 userId
        let contact := getUser st3 contactId
        let fwd : List Emit :=
          match presenceGet s.connectedUsers contactId, user with
          | some sid, some u =>
              [{ target := Target.socketOf sid, name := "contact:accepted",
                 payload := Payload.contactPeer (some u) }]
          | _, _ => []
        ({ s with store := st3 },
         fwd ++ [{ target := Target.senderSocket, name := "contact:accepted",
                   payload := Payload.contactPeer contact }], true)
      else ({ s with store := st2 }, errEmit, false)
    else ({ s with store := st1 }, errEmit, false)
  else (s, errEmit, false)

/-! ### Call-signaling handlers: presence-gated pass-through, no store access. -/

/-- Handler for `call:offer`: forwards `{ from, offer }` as `call:incoming` to the
target's live session, if any. -/
def callOffer (s : ServerState) (src dst offer : String) :
    ServerState × List Emit :=
  match presenceGet s.connectedUsers dst with
  | some sid =>
      (s, [{ target := Target.socketOf sid, name := "call:incoming",
             payload := Payload.callIncoming src offer }])
  | none => (s, [])

/-- Handler for `call:request-offer`: forwards `call:get-offer` (no payload) to the
target's live session, if any. -/
def callRequestOffer (s : ServerState) (dst : String) :
    ServerState × List Emit :=
  match presenceGet s.connectedUsers dst with
  | some sid =>
      (s, [{ target := Target.socketOf sid, name := "call:get-offer",
             payload := Payload.callGetOffer }])
  | none => (s, [])

/-- Handler for `call:answer`: forwards `{ from, answer }` to the target's live
session, if any. -/
def callAnswer (s : ServerState) (src dst answer : String) :
    ServerState × List Emit :=
  match presenceGet s.connectedUsers dst with
  | some sid =>
      (s, [{ target := Target.socketOf sid, name := "call:answer",
             payload := Payload.callAnswerBody src answer }])
  | none => (s, [])

/-- Handler for `call:ice-candidate`: forwards `{ candidate }` to the target's live
session, if any. -/
def callIceCandidate (s : ServerState) (dst candidate : String) :
    ServerState × List Emit :=
  match presenceGet s.connectedUsers dst with
  | some sid =>
      (s, [{ target := Target.socketOf sid, name := "call:ice-candidate",
             payload := Payload.callIce candidate }])
  | none => (s, [])

/-- Handler for `call:reject`: forwards `call:rejected` (no payload) to the target's
live session, if any. -/
def callReject (s : ServerState) (src dst : String) :
    ServerState × List Emit :=
  match presenceGet s.connectedUsers dst with
  | some sid =>
      (s, [{ target := Target.socketOf sid, name := "call:rejected",
             payload := Payload.callRejected }])
  | none => (s, [])

/-- Handler for `call:end`: forwards `call:ended` (no payload) to the target's live
session, if any. -/
def callEnd (s : ServerState) (src dst : String) :
    ServerState × List Emit :=
  match presenceGet s.connectedUsers dst with
  | some sid =>
      (s, [{ target := Target.socketOf sid, name := "call:ended",
             payload := Payload.callEnded }])
  | none => (s, [])

/-! ### The expiry sweep (`setInterval` body in `registerRoutes`) -/

/-- The per-message guard inside the sweep loop:
`msg.selfDestructAt && new Date() > msg.selfDestructAt`. -/
def shouldSelfDestruct (now : Nat) (m : Message) : Bool :=
  match m.selfDestructAt with
  | some t => decide (t < now)
  | none => false

/-- One sweep cycle: query `getExpiredMessages`, then delete each returned
message whose `selfDestructAt` exists and has elapsed. -/
def sweepCycle (st : Storage) (now : Nat) : Storage :=
  (getExpiredMessages st).foldl
    (fun acc m => if shouldSelfDestruct now m then deleteMessage acc m.id now else acc)
    st

/-- The accumulated effect on one row of a batch of `deleteMessage` calls
with ids `ids`, all at time `now`.  Used to characterise the sweep. -/
def sweepMark (now : Nat) (ids : List Nat) (m : Message) : Message :=
  if m.id ∈ ids then { m with deletedAt := some now } else m

/-! ## Concrete sample data (for evaluating the theorems on closed inputs) -/

/-- An empty store. -/
def stEmpty : Storage := { users := [], contacts := [], messages := [], contactRequests := [] }

/-- A server state with no connected session and an empty store. -/
def sEmpty : ServerState := { connectedUsers := [], store := stEmpty }

/-- A sample message between alice and bob: read, not deleted, and with no
self-destruct timer. -/
def msgReadNoTimer : Message :=
  { id := 1, senderId := "alice", recipientId := "bob",
    encryptedContent := "c", nonce := "n", isEncrypted := true,
    isRead := true, isDelivered := true,
    selfDestructAt := none, selfDestructSeconds := none,
    createdAt := 40, deletedAt := none }

/-- A store holding only `msgReadNoTimer`. -/
def stReadNoTimer : Storage :=
  { users := [], contacts := [], messages := [msgReadNoTimer], contactRequests := [] }

/-- A contact request from alice to bob that was already accepted. -/
def reqAcceptedRow : ContactRequest :=
  { id := 5, fromUserId := "alice", toUserId := "bob", status := "accepted",
    createdAt := 10, respondedAt := some 20 }

/-- A server state whose store holds only the accepted request
`reqAcceptedRow` (no pending request for any pair). -/
def sAccepted : ServerState :=
  { connectedUsers := [],
    store := { users := [], contacts := [], messages := [],
               contactRequests := [reqAcceptedRow] } }

/-- A pending contact request from bob to alice. -/
def reqPendingRow : ContactRequest :=
  { id := 5, fromUserId := "bob", toUserId := "alice", status := "pending",
    createdAt := 10, respondedAt := none }

/-- A server state whose store holds only the pending request
`reqPendingRow` and no contacts. -/
def sPending : ServerState :=
  { connectedUsers := [],
    store := { users := [], contacts := [], messages := [],
               contactRequests := [reqPendingRow] } }

/-- A sample send payload with a 30-second self-destruct timer. -/
def sendThirty : SendData :=
  { senderId := "alice", recipientId := "bob", encryptedContent := "c",
    nonce := "n", isEncrypted := true, selfDestructSeconds := some 30 }

/-- A sample send payload whose `selfDestructSeconds` is present but zero. -/
def sendZero : SendData :=
  { senderId := "alice", recipientId := "bob", encryptedContent := "c",
    nonce := "n", isEncrypted := true, selfDestructSeconds := some 0 }

/-- A server state in which bob has a live session `sockB`. -/
def sBobOnline : ServerState :=
  { connectedUsers := [("bob", "sockB")], store := stEmpty }

/-! ## Helper lemmas -/

theorem mem_insertByCreatedDesc {m x : Message} {l : List Message} :
    x ∈ insertByCreatedDesc m l ↔ x = m ∨ x ∈ l := by
  induction l with
  | nil => simp [insertByCreatedDesc]
  | cons a l ih =>
      simp only [insertByCreatedDesc]
      split
      · simp [List.mem_cons]
      · simp only [List.mem_cons, ih]
        tauto

theorem perm_insertByCreatedDesc (m : Message) (l : List Message) :
    List.Perm (insertByCreatedDesc m l) (m :: l) := by
  induction l with
  | nil => exact List.Perm.refl _
  | cons a l ih =>
      simp only [insertByCreatedDesc]
      split
      · exact List.Perm.refl _
      · exact (ih.cons a).trans (List.Perm.swap m a l)

theorem perm_sortByCreatedDesc (l : List Message) :
    List.Perm (sortByCreatedDesc l) l := by
  induction l with
  | nil => exact List.Perm.refl _
  | cons a l ih =>
      exact (perm_insertByCreatedDesc a (sortByCreatedDesc l)).trans (ih.cons a)

theorem pairwise_insertByCreatedDesc {m : Message} {l : List Message}
    (h : l.Pairwise (fun a b => b.createdAt ≤ a.createdAt)) :
    (insertByCreatedDesc m l).Pairwise (fun a b => b.createdAt ≤ a.createdAt) := by
  induction l with
  | nil => simp [insertByCreatedDesc]
  | cons a l ih =>
      rcases List.pairwise_cons.1 h with ⟨ha, hl⟩
      simp only [insertByCreatedDesc]
      split
      · rename_i hle
        refine List.pairwise_cons.2 ⟨?_, h⟩
        intro b hb
        rcases List.mem_cons.1 hb with rfl | hb
        · exact hle
        · exact le_trans (ha b hb) hle
      · rename_i hgt
        refine List.pairwise_cons.2 ⟨?_, ih hl⟩
        intro b hb
        rcases mem_insertByCreatedDesc.1 hb with rfl | hb
        · exact le_of_not_le hgt
        · exact ha b hb

theorem pairwise_sortByCreatedDesc (l : List Message) :
    (sortByCreatedDesc l).Pairwise (fun a b => b.createdAt ≤ a.createdAt) := by
  induction l with
  | nil => simp [sortByCreatedDesc]
  | cons a l ih => exact pairwise_insertByCreatedDesc ih

/-! ## Claim theorems -/

/-- C6: `getMessages(A, B)` returns exactly the messages with null
`deletedAt` whose (sender, recipient) pair is (A,B) or (B,A), and the
result is ordered newest first (descending `createdAt`). -/
theorem getMessages_spec (st : Storage) (A B : String) :
    (∀ m, m ∈ getMessages st A B ↔
      (m ∈ st.messages ∧ m.deletedAt = none ∧
        ((m.senderId = A ∧ m.recipientId = B) ∨
         (m.senderId = B ∧ m.recipientId = A)))) ∧
    (getMessages st A B).Pairwise (fun a b => b.createdAt ≤ a.createdAt) := by
  constructor
  · intro m
    rw [getMessages, (perm_sortByCreatedDesc _).mem_iff, List.mem_filter]
    simp [conversationPred]
  · exact pairwise_sortByCreatedDesc _

/-- Closed evaluation of C6 on a concrete store. -/
theorem getMessages_spec_witness :
    msgReadNoTimer ∈ getMessages stReadNoTimer "alice" "bob" ∧
    (getMessages stReadNoTimer "alice" "bob").Pairwise
      (fun a b => b.createdAt ≤ a.createdAt) :=
  ⟨((getMessages_spec stReadNoTimer "alice" "bob").1 msgReadNoTimer).2
      (by constructor
          · decide
          · exact ⟨rfl, Or.inl ⟨rfl, rfl⟩⟩),
   (getMessages_spec stReadNoTimer "alice" "bob").2⟩

/-- C7 counterexample: a message created with `selfDestructSeconds`
present and equal to 0 stores `selfDestructAt = null`, not creation time
plus 0 seconds — `insertMessage.selfDestructSeconds ? ... : null` treats
the present value 0 as absent. -/
theorem createMessage_zero_counterexample :
    sendZero.selfDestructSeconds = some 0 ∧
    (createMessage stEmpty sendZero 1 1000).2.createdAt = 1000 ∧
    (createMessage stEmpty sendZero 1 1000).2.selfDestructAt = none ∧
    (createMessage stEmpty sendZero 1 1000).2.selfDestructAt ≠ some (1000 + 0 * 1000) := by
  refine ⟨rfl, rfl, rfl, ?_⟩
  decide

/-- C7 amended: when `selfDestructSeconds` is present and positive, the
stored `selfDestructAt` equals the creation time plus that many seconds
(`now + s * 1000` in milliseconds); when it is absent — or present but
zero, which JavaScript truthiness treats as absent — `selfDestructAt` is
null. -/
theorem createMessage_selfDestruct_spec (st : Storage) (d : SendData)
    (newId now : Nat) :
    (createMessage st d newId now).2.createdAt = now ∧
    (d.selfDestructSeconds = none →
      (createMessage st d newId now).2.selfDestructAt = none) ∧
    (d.selfDestructSeconds = some 0 →
      (createMessage st d newId now).2.selfDestructAt = none) ∧
    (∀ s, d.selfDestructSeconds = some s → 0 < s →
      (createMessage st d newId now).2.selfDestructAt = some (now + s * 1000)) := by
  refine ⟨rfl, ?_, ?_, ?_⟩
  · intro h
    simp [createMessage, h]
  · intro h
    simp [createMessage, h]
  · intro s hs hpos
    simp [createMessage, hs, Nat.pos_iff_ne_zero.1 hpos]

/-- Closed evaluation of C7 (amended) at `selfDestructSeconds = 30`,
creation time 5000. -/
theorem createMessage_selfDestruct_spec_witness :
    sendThirty.selfDestructSeconds = some 30 ∧
    (createMessage stEmpty sendThirty 1 5000).2.selfDestructAt = some (5000 + 30 * 1000) :=
  ⟨rfl, (createMessage_selfDestruct_spec stEmpty sendThirty 1 5000).2.2.2 30 rfl (by decide)⟩

/-- C5: sending to a recipient with no live session persists the record
with `isDelivered = false`, forwards nothing (the store is exactly the
insert result, with no delivered-flag write), and still echoes the stored
record to the sender as the only emitted event. -/
theorem messageSend_offline_spec (s : ServerState) (d : SendData)
    (newId now : Nat)
    (hoff : presenceGet s.connectedUsers d.recipientId = none) :
    (createMessage s.store d newId now).2.isDelivered = false ∧
    (messageSend s d newId now true).1.store = (createMessage s.store d newId now).1 ∧
    (createMessage s.store d newId now).2 ∈ (messageSend s d newId now true).1.store.messages ∧
    (messageSend s d newId now true).2 =
      [{ target := Target.senderSocket, name := "message:sent",
         payload := Payload.msg (createMessage s.store d newId now).2 }] := by
  refine ⟨rfl, ?_, ?_, ?_⟩
  · simp [messageSend, hoff, createMessage]
  · simp [messageSend, hoff, createMessage]
  · simp [messageSend, hoff, createMessage]

/-- Closed evaluation of C5: alice sends to bob while nobody is
connected. -/
theorem messageSend_offline_spec_witness :
    presenceGet sEmpty.connectedUsers sendThirty.recipientId = none ∧
    (createMessage sEmpty.store sendThirty 1 5000).2.isDelivered = false ∧
    (messageSend sEmpty sendThirty 1 5000 true).2 =
      [{ target := Target.senderSocket, name := "message:sent",
         payload := Payload.msg (createMessage sEmpty.store sendThirty 1 5000).2 }] :=
  ⟨rfl,
   (messageSend_offline_spec sEmpty sendThirty 1 5000 rfl).1,
   (messageSend_offline_spec sEmpty sendThirty 1 5000 rfl).2.2.2⟩

/-- C10: sending to a recipient with a live session forwards the record
and echoes the acknowledgment both carrying the insert result, whose
`isDelivered` field is `false`, even though the stored row is then marked
delivered in the same operation. -/
theorem messageSend_online_spec (s : ServerState) (d : SendData)
    (newId now : Nat) (sid : String)
    (hon : presenceGet s.connectedUsers d.recipientId = some sid) :
    (createMessage s.store d newId now).2.isDelivered = false ∧
    (messageSend s d newId now true).2 =
      [{ target := Target.socketOf sid, name := "message:receive",
         payload := Payload.msg (createMessage s.store d newId now).2 },
       { target := Target.senderSocket, name := "message:sent",
         payload := Payload.msg (createMessage s.store d newId now).2 }] ∧
    { (createMessage s.store d newId now).2 with isDelivered := true } ∈
      (messageSend s d newId now true).1.store.messages := by
  refine ⟨rfl, ?_, ?_⟩
  · simp [messageSend, hon, createMessage]
  · simp only [messageSend, hon, createMessage, markMessageAsDelivered]
    refine List.mem_map.2 ⟨(createMessage s.store d newId now).2, ?_, ?_⟩
    · simp [createMessage]
    · simp [markDeliveredRow, createMessage]

/-- Closed evaluation of C10: alice sends to bob while bob's session
`sockB` is live; the emitted copies carry `isDelivered = false` and the
stored row is marked delivered. -/
theorem messageSend_online_spec_witness :
    presenceGet sBobOnline.connectedUsers sendThirty.recipientId = some "sockB" ∧
    (createMessage sBobOnline.store sendThirty 1 5000).2.isDelivered = false ∧
    { (createMessage sBobOnline.store sendThirty 1 5000).2 with isDelivered := true } ∈
      (messageSend sBobOnline sendThirty 1 5000 true).1.store.messages :=
  ⟨rfl,
   (messageSend_online_spec sBobOnline sendThirty 1 5000 "sockB" rfl).1,
   (messageSend_online_spec sBobOnline sendThirty 1 5000 "sockB" rfl).2.2⟩

/-- C4 counterexample: in the `user:online` handler's effect trace the
status broadcast does NOT precede the awaited durable-store write — the
handler awaits `storage.updateUserOnlineStatus` first and only then calls
`io.emit("user:status", ...)`. -/
theorem userOnline_order_counterexample :
    ¬ ((userOnline sEmpty "alice" "sock1" 0).2.indexOf
          (OnlineStep.statusBroadcast "alice" true) <
       (userOnline sEmpty "alice" "sock1" 0).2.indexOf
          (OnlineStep.storeWriteAwaited "alice" true)) := by
  decide

/-- C4 amended: for every announce-online event the side effects occur in
the order (1) in-memory presence map update, (2) awaited durable-store
write of the online flag and last-seen timestamp, (3) `{userId, isOnline}`
broadcast — so the broadcast IS gated on store latency, while the map
update is not. -/
theorem userOnline_order_spec (s : ServerState) (userId socketId : String)
    (now : Nat) :
    (userOnline s userId socketId now).2 =
      [OnlineStep.mapUpdate userId socketId,
       OnlineStep.storeWriteAwaited userId true,
       OnlineStep.statusBroadcast userId true] ∧
    (userOnline s userId socketId now).1 =
      { connectedUsers := presenceSet s.connectedUsers userId socketId,
        store := updateUserOnlineStatus s.store userId true now } :=
  ⟨rfl, rfl⟩

/-- C9: each call-signaling handler forwards its payload to the target's
live session when one exists and otherwise emits nothing at all — no error
or acknowledgment to the sender — and in both branches the server state
(presence map and store) is completely unchanged. -/
theorem callRelay_spec (s : ServerState) (src dst offer answer candidate : String) :
    ((presenceGet s.connectedUsers dst = none →
        callOffer s src dst offer = (s, []) ∧
        callRequestOffer s dst = (s, []) ∧
        callAnswer s src dst answer = (s, []) ∧
        callIceCandidate s dst candidate = (s, []) ∧
        callReject s src dst = (s, []) ∧
        callEnd s src dst = (s, [])) ∧
     (∀ sid, presenceGet s.connectedUsers dst = some sid →
        callOffer s src dst offer =
          (s, [{ target := Target.socketOf sid, name := "call:incoming",
                 payload := Payload.callIncoming src offer }]) ∧
        callRequestOffer s dst =
          (s, [{ target := Target.socketOf sid, name := "call:get-offer",
                 payload := Payload.callGetOffer }]) ∧
        callAnswer s src dst answer =
          (s, [{ target := Target.socketOf sid, name := "call:answer",
                 payload := Payload.callAnswerBody src answer }]) ∧
        callIceCandidate s dst candidate =
          (s, [{ target := Target.socketOf sid, name := "call:ice-candidate",
                 payload := Payload.callIce candidate }]) ∧
        callReject s src dst =
          (s, [{ target := Target.socketOf sid, name := "call:rejected",
                 payload := Payload.callRejected }]) ∧
        callEnd s src dst =
          (s, [{ target := Target.socketOf sid, name := "call:ended",
                 payload := Payload.callEnded }]))) := by
  constructor
  · intro h
    refine ⟨?_, ?_, ?_, ?_, ?_, ?_⟩ <;>
      simp [callOffer, callRequestOffer, callAnswer, callIceCandidate,
            callReject, callEnd, h]
  · intro sid h
    refine ⟨?_, ?_, ?_, ?_, ?_, ?_⟩ <;>
      simp [callOffer, callRequestOffer, callAnswer, callIceCandidate,
            callReject, callEnd, h]

/-- Closed evaluation of C9: signaling bob while nobody is connected emits
nothing and changes nothing; signaling bob while his session is live
forwards the offer to that session. -/
theorem callRelay_spec_witness :
    callOffer sEmpty "alice" "bob" "sdp" = (sEmpty, []) ∧
    callOffer sBobOnline "alice" "bob" "sdp" =
      (sBobOnline, [{ target := Target.socketOf "sockB", name := "call:incoming",
                      payload := Payload.callIncoming "alice" "sdp" }]) :=
  ⟨((callRelay_spec sEmpty "alice" "bob" "sdp" "a" "c").1 rfl).1,
   ((callRelay_spec sBobOnline "alice" "bob" "sdp" "a" "c").2 "sockB" rfl).1⟩

/-- C3 counterexample: with a single already-ACCEPTED request alice→bob in
the store (so no pending request exists for the pair), a new
`requestContact(alice, bob)` still fails with the duplicate-request
conflict and creates no new pending row — `getContactRequest` matches the
ordered pair without filtering on status. -/
theorem contactRequest_counterexample :
    (∀ r ∈ sAccepted.store.contactRequests, r.status ≠ "pending") ∧
    (contactRequestHandler sAccepted "alice" "bob" 6 30).1 = sAccepted ∧
    (contactRequestHandler sAccepted "alice" "bob" 6 30).2 =
      [{ target := Target.senderSocket, name := "contact:request:error",
         payload := Payload.err "Request already sent" }] := by
  decide

/-- If any ContactRequest row exists for the ordered pair, the
`contact:request` handler takes the conflict branch: state unchanged, one
error event to the sender. -/
theorem contactRequestHandler_conflict {s : ServerState} {f t : String}
    (hmem : ∃ r ∈ s.store.contactRequests, r.fromUserId = f ∧ r.toUserId = t)
    (newId now : Nat) :
    (contactRequestHandler s f t newId now).1 = s ∧
    (contactRequestHandler s f t newId now).2 =
      [{ target := Target.senderSocket, name := "contact:request:error",
         payload := Payload.err "Request already sent" }] := by
  obtain ⟨r, hr, hf, ht⟩ := hmem
  have hne : getContactRequest s.store f t ≠ none := by
    unfold getContactRequest
    rw [Ne, List.head?_eq_none_iff, List.filter_eq_nil_iff]
    intro hall
    exact hall r hr (by simp [hf, ht])
  obtain ⟨x, hx⟩ := Option.ne_none_iff_exists'.mp hne
  constructor <;> simp [contactRequestHandler, hx]

/-- C3 amended: `requestContact(fromId, toId)` fails with the
duplicate-request conflict exactly when ANY ContactRequest row — pending,
accepted or rejected — exists for the ordered pair, leaving the state
unchanged; when no row at all exists for the pair, a new pending row is
created, and an immediate second request for the same pair then conflicts
and leaves the state unchanged (so exactly one row for the pair remains). -/
theorem contactRequest_spec (s : ServerState) (f t : String) (newId now : Nat) :
    ((∃ r ∈ s.store.contactRequests, r.fromUserId = f ∧ r.toUserId = t) →
       (contactRequestHandler s f t newId now).1 = s ∧
       (contactRequestHandler s f t newId now).2 =
         [{ target := Target.senderSocket, name := "contact:request:error",
            payload := Payload.err "Request already sent" }]) ∧
    ((∀ r ∈ s.store.contactRequests, ¬(r.fromUserId = f ∧ r.toUserId = t)) →
       (contactRequestHandler s f t newId now).1.store.contactRequests =
         s.store.contactRequests ++
           [{ id := newId, fromUserId := f, toUserId := t, status := "pending",
              createdAt := now, respondedAt := none }] ∧
       ∀ newId2 now2,
         (contactRequestHandler (contactRequestHandler s f t newId now).1
            f t newId2 now2).1 =
           (contactRequestHandler s f t newId now).1) := by
  have hchar : ∀ (h : getContactRequest s.store f t = none),
      (contactRequestHandler s f t newId now).1.store.contactRequests =
        s.store.contactRequests ++
          [{ id := newId, fromUserId := f, toUserId := t, status := "pending",
             createdAt := now, respondedAt := none }] := by
    intro h
    simp [contactRequestHandler, h, createContactRequest]
  constructor
  · intro hmem
    exact contactRequestHandler_conflict hmem newId now
  · intro hall
    have hnone : getContactRequest s.store f t = none := by
      unfold getContactRequest
      rw [List.head?_eq_none_iff, List.filter_eq_nil_iff]
      intro r hr
      simpa using hall r hr
    refine ⟨hchar hnone, ?_⟩
    intro newId2 now2
    have hmem : ∃ r ∈ (contactRequestHandler s f t newId now).1.store.contactRequests,
        r.fromUserId = f ∧ r.toUserId = t := by
      refine ⟨{ id := newId, fromUserId := f, toUserId := t, status := "pending",
                createdAt := now, respondedAt := none }, ?_, rfl, rfl⟩
      rw [hchar hnone]
      exact List.mem_append_right _ (List.mem_singleton_self _)
    exact (contactRequestHandler_conflict hmem newId2 now2).1

/-- Closed evaluation of C3 (amended): on an empty store the request
creates one pending row; on a store already holding a row for the pair the
handler leaves the state unchanged. -/
theorem contactRequest_spec_witness :
    (contactRequestHandler sEmpty "alice" "bob" 6 30).1.store.contactRequests =
      [{ id := 6, fromUserId := "alice", toUserId := "bob", status := "pending",
         createdAt := 30, respondedAt := none }] ∧
    (contactRequestHandler sAccepted "alice" "bob" 6 30).1 = sAccepted :=
  ⟨by
     have h := ((contactRequest_spec sEmpty "alice" "bob" 6 30).2 (by decide)).1
     simpa [stEmpty, sEmpty] using h,
   ((contactRequest_spec sAccepted "alice" "bob" 6 30).1
      ⟨reqAcceptedRow, by decide, rfl, rfl⟩).1⟩

theorem sweepMark_nil (now : Nat) (m : Message) : sweepMark now [] m = m := by
  simp [sweepMark]

theorem map_sweepMark_nil (now : Nat) :
    ∀ l : List Message, l.map (sweepMark now []) = l
  | [] => rfl
  | a :: l => by rw [List.map_cons, sweepMark_nil, map_sweepMark_nil now l]

theorem sweepMark_delete_row (now i : Nat) (ids : List Nat) (m : Message) :
    sweepMark now ids (deleteMessageRow i now m) = sweepMark now (i :: ids) m := by
  simp only [sweepMark, deleteMessageRow]
  split_ifs <;> simp_all

theorem map_sweepMark_delete (now i : Nat) (ids : List Nat) (l : List Message) :
    (l.map (deleteMessageRow i now)).map (sweepMark now ids) =
      l.map (sweepMark now (i :: ids)) := by
  rw [List.map_map]
  exact List.map_congr_left fun m _ => sweepMark_delete_row now i ids m

/-- The sweep loop, characterised: it is the pointwise `sweepMark` with the
ids of the processed messages that pass the per-message guard. -/
theorem sweep_foldl_char (now : Nat) (L : List Message) :
    ∀ st : Storage,
      L.foldl (fun acc m =>
          if shouldSelfDestruct now m then deleteMessage acc m.id now else acc) st
        = { st with messages := st.messages.map (sweepMark now
              ((L.filter (shouldSelfDestruct now)).map (·.id))) } := by
  induction L with
  | nil =>
      intro st
      simp [map_sweepMark_nil]
  | cons a L ih =>
      intro st
      rw [List.foldl_cons]
      by_cases h : shouldSelfDestruct now a
      · rw [if_pos h, ih, List.filter_cons_of_pos h]
        simp only [deleteMessage, List.map_cons, map_sweepMark_delete]
      · rw [if_neg h, ih, List.filter_cons_of_neg h]

/-- The function `sweepCycle` in closed form. -/
theorem sweepCycle_eq_map (st : Storage) (now : Nat) :
    sweepCycle st now =
      { st with messages := st.messages.map (sweepMark now
          (((getExpiredMessages st).filter (shouldSelfDestruct now)).map (·.id))) } :=
  sweep_foldl_char now (getExpiredMessages st) st

/-- C2 counterexample: a non-deleted message with `isRead = true` but no
`selfDestructAt` timestamp IS returned by the sweep's store query, yet the
sweep does NOT delete it — the loop guards each deletion with
`msg.selfDestructAt && new Date() > msg.selfDestructAt`, so the state is
unchanged. -/
theorem sweepCycle_counterexample :
    msgReadNoTimer.isRead = true ∧
    msgReadNoTimer.deletedAt = none ∧
    msgReadNoTimer.selfDestructAt = none ∧
    msgReadNoTimer ∈ getExpiredMessages stReadNoTimer ∧
    sweepCycle stReadNoTimer 1000 = stReadNoTimer := by
  decide

/-- C2 amended: the sweep's store query selects exactly the non-deleted
messages with `isRead = true` (independent of `selfDestructAt`), but the
sweep then deletes only those among them whose `selfDestructAt` is present
and has elapsed; every other message — including read ones with no timer
or an unexpired timer — is left unchanged.  (Unique row ids, as the
primary key guarantees.) -/
theorem sweepCycle_spec (st : Storage) (now : Nat)
    (hids : (st.messages.map (·.id)).Nodup) :
    getExpiredMessages st =
      st.messages.filter (fun m => decide (m.deletedAt = none ∧ m.isRead = true)) ∧
    (sweepCycle st now).messages = st.messages.map (fun m =>
      if m.deletedAt = none ∧ m.isRead = true ∧ shouldSelfDestruct now m = true
      then { m with deletedAt := some now } else m) := by
  refine ⟨rfl, ?_⟩
  rw [sweepCycle_eq_map]
  apply List.map_congr_left
  intro m hm
  by_cases hpred : m.deletedAt = none ∧ m.isRead = true ∧ shouldSelfDestruct now m = true
  · rw [if_pos hpred]
    have hmem : m.id ∈ (((getExpiredMessages st).filter (shouldSelfDestruct now)).map (·.id)) := by
      apply List.mem_map_of_mem
      apply List.mem_filter.2
      refine ⟨?_, hpred.2.2⟩
      exact List.mem_filter.2 ⟨hm, by simp [hpred.1, hpred.2.1]⟩
    simp [sweepMark, hmem]
  · rw [if_neg hpred]
    have hnmem : m.id ∉
        (((getExpiredMessages st).filter (shouldSelfDestruct now)).map (·.id)) := by
      intro hmem
      obtain ⟨m', hm', hid⟩ := List.mem_map.1 hmem
      have hm'filter := List.mem_filter.1 hm'
      have hm'exp : m' ∈ st.messages ∧
          decide (m'.deletedAt = none ∧ m'.isRead = true) = true :=
        List.mem_filter.1 hm'filter.1
      have heq : m' = m :=
        List.inj_on_of_nodup_map hids hm'exp.1 hm hid
      subst heq
      apply hpred
      have hde := of_decide_eq_true hm'exp.2
      exact ⟨hde.1, hde.2, hm'filter.2⟩
    simp [sweepMark, hnmem]

/-- Closed evaluation of C2 (amended) on the one-message sample store. -/
theorem sweepCycle_spec_witness :
    (sweepCycle stReadNoTimer 1000).messages =
      stReadNoTimer.messages.map (fun m =>
        if m.deletedAt = none ∧ m.isRead = true ∧ shouldSelfDestruct 1000 m = true
        then { m with deletedAt := some 1000 } else m) :=
  (sweepCycle_spec stReadNoTimer 1000 (by decide)).2

/-- C8 counterexample: `deleteMessage` is not idempotent on the stored
state — re-deleting an already-deleted message at a later time overwrites
the `deletedAt` timestamp with the new time, changing the stored state. -/
theorem deleteMessage_counterexample :
    deleteMessage (deleteMessage stReadNoTimer 1 5) 1 7 ≠
      deleteMessage stReadNoTimer 1 5 := by
  decide

/-- C8 amended: `deleteMessage` sets `deletedAt` to the current time on
the matching row (and leaves every other row unchanged), and is
idempotent when re-applied at the same timestamp, but a second delete at
a later time overwrites `deletedAt` with the new time; the deleted-ness
itself is monotone — once `deletedAt` is non-null, no operation (delete,
mark-read, mark-delivered, message insertion, or the sweep) ever returns
it to null. -/
theorem deleteMessage_tombstone_spec :
    (∀ st mid now k m, st.messages.get? k = some m → m.id = mid →
       (deleteMessage st mid now).messages.get? k =
         some { m with deletedAt := some now }) ∧
    (∀ st mid now k m, st.messages.get? k = some m → m.id ≠ mid →
       (deleteMessage st mid now).messages.get? k = some m) ∧
    (∀ st mid now,
       deleteMessage (deleteMessage st mid now) mid now = deleteMessage st mid now) ∧
    (∀ st mid now k m m', st.messages.get? k = some m →
       (deleteMessage st mid now).messages.get? k = some m' →
       m'.deletedAt = none → m.deletedAt = none) ∧
    (∀ st mid k m m', st.messages.get? k = some m →
       (markMessageAsRead st mid).messages.get? k = some m' →
       m'.deletedAt = m.deletedAt) ∧
    (∀ st mid k m m', st.messages.get? k = some m →
       (markMessageAsDelivered st mid).messages.get? k = some m' →
       m'.deletedAt = m.deletedAt) ∧
    (∀ st d newId now m, m ∈ st.messages →
       m ∈ (createMessage st d newId now).1.messages) ∧
    (∀ st now k m m', st.messages.get? k = some m →
       (sweepCycle st now).messages.get? k = some m' →
       m'.deletedAt = none → m.deletedAt = none) := by
  refine ⟨?_, ?_, ?_, ?_, ?_, ?_, ?_, ?_⟩
  · intro st mid now k m hm hid
    simp only [deleteMessage, List.get?_map, hm, Option.map_some',
      Option.some.injEq]
    simp [deleteMessageRow, hid]
  · intro st mid now k m hm hid
    simp only [deleteMessage, List.get?_map, hm, Option.map_some',
      Option.some.injEq]
    simp [deleteMessageRow, hid]
  · intro st mid now
    simp only [deleteMessage, List.map_map]
    congr 1
    apply List.map_congr_left
    intro m _
    simp only [Function.comp, deleteMessageRow]
    split_ifs <;> simp_all
  · intro st mid now k m m' hm hm' hnone
    simp only [deleteMessage, List.get?_map, hm, Option.map_some',
      Option.some.injEq] at hm'
    subst hm'
    revert hnone
    simp only [deleteMessageRow]
    split_ifs <;> simp_all
  · intro st mid k m m' hm hm'
    simp only [markMessageAsRead, List.get?_map, hm, Option.map_some',
      Option.some.injEq] at hm'
    subst hm'
    simp only [markReadRow]
    split_ifs <;> rfl
  · intro st mid k m m' hm hm'
    simp only [markMessageAsDelivered, List.get?_map, hm, Option.map_some',
      Option.some.injEq] at hm'
    subst hm'
    simp only [markDeliveredRow]
    split_ifs <;> rfl
  · intro st d newId now m hmem
    exact List.mem_append_left _ hmem
  · intro st now k m m' hm hm' hnone
    rw [sweepCycle_eq_map] at hm'
    simp only [List.get?_map, hm, Option.map_some', Option.some.injEq] at hm'
    subst hm'
    revert hnone
    simp only [sweepMark]
    split_ifs <;> simp_all

/-- Closed evaluation of C8 (amended): deleting the id-1 message at time 5
sets its tombstone to `some 5`, same-timestamp idempotence holds on the
sample store, and the tombstone is preserved through a non-matching
delete. -/
theorem deleteMessage_tombstone_spec_witness :
    (deleteMessage stReadNoTimer 1 5).messages.get? 0 =
      some { msgReadNoTimer with deletedAt := some 5 } ∧
    deleteMessage (deleteMessage stReadNoTimer 1 5) 1 5 = deleteMessage stReadNoTimer 1 5 ∧
    msgReadNoTimer.deletedAt = none :=
  ⟨deleteMessage_tombstone_spec.1 stReadNoTimer 1 5 0 msgReadNoTimer rfl rfl,
   deleteMessage_tombstone_spec.2.2.1 stReadNoTimer 1 5,
   deleteMessage_tombstone_spec.2.2.2.1 stReadNoTimer 2 5 0 msgReadNoTimer
     (deleteMessageRow 2 5 msgReadNoTimer) rfl rfl (by decide)⟩

/-- C1 counterexample: the accept handler runs its three store writes in
sequence with no transaction.  If the second `createContact` write fails
(ok3 = false) after the status update and the first row creation
succeeded, the operation fails, yet the stored state is changed: the
request is left in `accepted` status and exactly one directed contact row
(accepter→requester) exists, the reverse row being absent. -/
theorem contactAccept_counterexample :
    (contactAccept sPending 5 "alice" "bob" true true false 7 8 30).2.2 = false ∧
    (contactAccept sPending 5 "alice" "bob" true true false 7 8 30).1 ≠ sPending ∧
    (∃ r ∈ (contactAccept sPending 5 "alice" "bob" true true false 7 8 30).1.store.contactRequests,
       r.id = 5 ∧ r.status = "accepted") ∧
    (∃ c ∈ (contactAccept sPending 5 "alice" "bob" true true false 7 8 30).1.store.contacts,
       c.userId = "alice" ∧ c.contactId = "bob" ∧ c.status = "accepted") ∧
    (∀ c ∈ (contactAccept sPending 5 "alice" "bob" true true false 7 8 30).1.store.contacts,
       ¬(c.userId = "bob" ∧ c.contactId = "alice")) := by
  decide

/-- C1 amended: when all three store writes succeed the operation succeeds
and both directed Contact rows exist with status `accepted`; the operation
succeeds exactly when every write succeeds; but a failure does NOT leave
the stored state unchanged — writes already performed persist, and in
particular a failure of the second row insert leaves the request accepted
with only the accepter→requester row created; every failure surfaces the
`contact:error` event to the accepter. -/
theorem contactAccept_spec (s : ServerState) (requestId : Nat)
    (userId contactId : String) (ok1 ok2 ok3 : Bool) (n1 n2 now : Nat) :
    ((contactAccept s requestId userId contactId ok1 ok2 ok3 n1 n2 now).2.2 = true ↔
       (ok1 = true ∧ ok2 = true ∧ ok3 = true)) ∧
    ((contactAccept s requestId userId contactId ok1 ok2 ok3 n1 n2 now).2.2 = true →
       (∃ c ∈ (contactAccept s requestId userId contactId ok1 ok2 ok3 n1 n2 now).1.store.contacts,
          c.userId = userId ∧ c.contactId = contactId ∧ c.status = "accepted") ∧
       (∃ c ∈ (contactAccept s requestId userId contactId ok1 ok2 ok3 n1 n2 now).1.store.contacts,
          c.userId = contactId ∧ c.contactId = userId ∧ c.status = "accepted")) ∧
    (ok1 = true → ok2 = true → ok3 = false →
       (contactAccept s requestId userId contactId ok1 ok2 ok3 n1 n2 now).1.store =
         (createContact (updateContactRequestStatus s.store requestId "accepted" now)
           userId contactId "accepted" n1 now).1) ∧
    ((contactAccept s requestId userId contactId ok1 ok2 ok3 n1 n2 now).2.2 = false →
       (contactAccept s requestId userId contactId ok1 ok2 ok3 n1 n2 now).2.1 =
         [{ target := Target.senderSocket, name := "contact:error",
            payload := Payload.err "Failed to accept request" }]) := by
  refine ⟨?_, ?_, ?_, ?_⟩
  · cases ok1 <;> cases ok2 <;> cases ok3 <;> simp [contactAccept]
  · intro h
    obtain ⟨h1, h2, h3⟩ : ok1 = true ∧ ok2 = true ∧ ok3 = true := by
      cases ok1 <;> cases ok2 <;> cases ok3 <;> simp_all [contactAccept]
    subst h1; subst h2; subst h3
    constructor
    · refine ⟨{ id := n1, userId := userId, contactId := contactId,
                status := "accepted", isVerified := false, safetyNumber := none,
                createdAt := now, updatedAt := now }, ?_, rfl, rfl, rfl⟩
      simp [contactAccept, createContact, updateContactRequestStatus]
    · refine ⟨{ id := n2, userId := contactId, contactId := userId,
                status := "accepted", isVerified := false, safetyNumber := none,
                createdAt := now, updatedAt := now }, ?_, rfl, rfl, rfl⟩
      simp [contactAccept, createContact, updateContactRequestStatus]
  · intro h1 h2 h3
    subst h1; subst h2; subst h3
    rfl
  · intro h
    cases ok1 <;> cases ok2 <;> cases ok3 <;> simp_all [contactAccept]

/-- Closed evaluation of C1 (amended): accepting the pending bob→alice
request with all writes succeeding yields both directed rows. -/
theorem contactAccept_spec_witness :
    (contactAccept sPending 5 "alice" "bob" true true true 7 8 30).2.2 = true ∧
    (∃ c ∈ (contactAccept sPending 5 "alice" "bob" true true true 7 8 30).1.store.contacts,
       c.userId = "alice" ∧ c.contactId = "bob" ∧ c.status = "accepted") ∧
    (∃ c ∈ (contactAccept sPending 5 "alice" "bob" true true true 7 8 30).1.store.contacts,
       c.userId = "bob" ∧ c.contactId = "alice" ∧ c.status = "accepted") := by
  have hs := (contactAccept_spec sPending 5 "alice" "bob" true true true 7 8 30).1.2
    ⟨rfl, rfl, rfl⟩
  exact ⟨hs, (contactAccept_spec sPending 5 "alice" "bob" true true true 7 8 30).2.1 hs⟩

end WatchDogs
